import Mathlib

/-!
Shallow embedding of the chat streaming session controller of the
nl-to-sql-agent frontend, and proofs about its state transitions.

Embedded source files:
- `src/frontend/src/context/ChatContext.tsx` (the `chatReducer`, the
  initial state, and the public `clearMessages` / `stopStreaming`
  operations);
- `src/frontend/src/hooks/useChatController.ts` (the `handleStreamEvent`
  event dispatcher, the `sendMessage` entry point and its SSE decode
  loop);
- `src/services/eventSource.ts` (the reconnection/backoff policy of
  `StreamingService.handleConnectionError`);
- `src/services/types.ts` (the data model: events, steps, messages,
  chat state).

Conventions: TypeScript `null`/`undefined` fields become `Option`;
JavaScript string operations used by the code (`trim`, `startsWith`) are
given structural definitions over `List Char` so that concrete states
evaluate inside the kernel; the wall clock (`new Date().toISOString()`)
is passed in as an explicit `timestamp` argument.
-/

namespace NlToSql

/-- Structural model of JavaScript `String.prototype.trim`: remove leading
and trailing whitespace. -/
def trimString (s : String) : String :=
  ⟨((s.data.dropWhile Char.isWhitespace).reverse.dropWhile Char.isWhitespace).reverse⟩

/-- Structural model of JavaScript `String.prototype.startsWith`. -/
def strBeginsWith (s p : String) : Bool :=
  p.data.isPrefixOf s.data

/-- `action.category` of `AgentActionEvent` in `src/services/types.ts`. -/
inductive ActionCategory where
  | schema_exploration
  | data_retrieval
  | validation
  | unknown
deriving DecidableEq, Repr

/-- The `action` payload of an `agent_action` event (`src/services/types.ts`). -/
structure AgentAction where
  tool : String
  category : ActionCategory
  description : String
  purpose : String
  input : String
  raw_input : String
deriving DecidableEq, Repr

/-- `observation.result_type` of `AgentObservationEvent` in `src/services/types.ts`. -/
inductive ResultType where
  | table_list
  | schema_info
  | sql_result
  | tabular_data
  | validation_result
  | text
  | empty
deriving DecidableEq, Repr

/-- The `observation` payload of an `agent_observation` event. -/
structure Observation where
  result : String
  result_type : ResultType
  success : Bool
deriving DecidableEq, Repr

/-- `ReActStep` of `src/services/types.ts`. -/
structure ReActStep where
  step_number : Nat
  thought : Option String
  action : AgentAction
  observation : Option Observation
  timestamp : String
deriving DecidableEq, Repr

/-- The `status` field of `ChatMessage`. -/
inductive MessageStatus where
  | thinking
  | processing
  | completed
  | error
deriving DecidableEq, Repr

/-- `ChatMessage` of `src/services/types.ts` (one conversation turn). -/
structure ChatMessage where
  id : String
  question : String
  answer : Option String := none
  steps : List ReActStep
  status : MessageStatus
  execution_time : Option Nat := none
  timestamp : String
  error_message : Option String := none
deriving DecidableEq, Repr

/-- `ChatState` of `src/services/types.ts`. -/
structure ChatState where
  messages : List ChatMessage
  currentMessage : Option ChatMessage
  isStreaming : Bool
  error : Option String
deriving DecidableEq, Repr

/-- `initialState` of `src/frontend/src/context/ChatContext.tsx`. -/
def initialState : ChatState :=
  { messages := [], currentMessage := none, isStreaming := false, error := none }

/-- The `ChatAction` union of `src/frontend/src/context/ChatContext.tsx`.
`start_streaming` additionally carries the timestamp that the reducer reads
from the wall clock (`new Date().toISOString()`). -/
inductive ChatAction where
  | start_streaming (question messageId timestamp : String)
  | stop_streaming
  | add_step (step : ReActStep)
  | update_step (stepNumber : Nat) (observation : Observation)
  | set_final_answer (answer : String) (totalSteps : Nat) (executionTime : Option Nat)
  | set_error (message : String)
  | clear_error
  | clear_messages
  | complete_message
deriving DecidableEq, Repr

/-- `chatReducer` of `src/frontend/src/context/ChatContext.tsx`, case by
case. Note that `SET_FINAL_ANSWER` keeps `currentMessage` pointing at the
completed message, that `STOP_STREAMING` only clears the flag, that
`ADD_STEP` always appends, and that the reducer ignores the `totalSteps`
payload of `SET_FINAL_ANSWER` — all exactly as in the source. -/
def chatReducer (state : ChatState) (action : ChatAction) : ChatState :=
  match action with
  | .start_streaming question messageId timestamp =>
      let newMessage : ChatMessage :=
        { id := messageId, question := question, steps := [],
          status := .thinking, timestamp := timestamp }
      { state with currentMessage := some newMessage, isStreaming := true, error := none }
  | .stop_streaming =>
      { state with isStreaming := false }
  | .add_step step =>
      match state.currentMessage with
      | none => state
      | some m =>
          let updatedMessage := { m with steps := m.steps ++ [step], status := .processing }
          { state with currentMessage := some updatedMessage }
  | .update_step stepNumber observation =>
      match state.currentMessage with
      | none => state
      | some m =>
          let updatedSteps := m.steps.map fun step =>
            if step.step_number = stepNumber then
              { step with observation := some observation }
            else step
          { state with currentMessage := some { m with steps := updatedSteps } }
  | .set_final_answer answer _totalSteps executionTime =>
      match state.currentMessage with
      | none => state
      | some m =>
          let completedMessage :=
            { m with answer := some answer, status := .completed,
                     execution_time := executionTime }
          { state with currentMessage := some completedMessage,
                       messages := state.messages ++ [completedMessage],
                       isStreaming := false }
  | .set_error message =>
      match state.currentMessage with
      | none =>
          { state with currentMessage := none, error := some message,
                       isStreaming := false, messages := state.messages }
      | some m =>
          let updatedMessage := { m with status := .error, error_message := some message }
          { state with currentMessage := some updatedMessage, error := some message,
                       isStreaming := false,
                       messages := state.messages ++ [updatedMessage] }
  | .clear_error =>
      { state with error := none }
  | .clear_messages =>
      initialState
  | .complete_message =>
      match state.currentMessage with
      | none => state
      | some _ => { state with currentMessage := none, isStreaming := false }

/-- The `ChatStreamEvent` union of `src/services/types.ts`, restricted to
the fields the controller reads. The `error` variant carries the optional
`message` field that `handleStreamEvent` reads (`event.message`). -/
inductive ChatStreamEvent where
  | execution_start (question queryId timestamp : String)
  | agent_action (step_number : Nat) (thought : Option String)
      (action : AgentAction) (timestamp : String)
  | agent_observation (step_number : Nat) (observation : Observation) (timestamp : String)
  | agent_finish (final_answer : String) (total_steps : Nat) (timestamp : String)
  | execution_summary (execution_time : Nat) (success : Bool) (timestamp : String)
  | execution_complete (timestamp : String)
  | heartbeat (timestamp : String)
  | error (message : Option String) (timestamp : String)
deriving DecidableEq, Repr

/-- JavaScript `event.message || 'An error occurred during processing'`:
an absent or empty message falls back to the default. -/
def errorMessageOrDefault (message : Option String) : String :=
  match message with
  | some m => if m = "" then "An error occurred during processing" else m
  | none => "An error occurred during processing"

/-- `handleStreamEvent` of `src/frontend/src/hooks/useChatController.ts`:
dispatches each decoded event to a reducer action. `execution_summary` and
`heartbeat` leave the state untouched; `agent_finish` calls
`setFinalAnswer(final_answer, total_steps)` with no execution time. -/
def handleStreamEvent (state : ChatState) (event : ChatStreamEvent) : ChatState :=
  match event with
  | .execution_start _ _ _ => chatReducer state .clear_error
  | .agent_action n thought action timestamp =>
      chatReducer state (.add_step
        { step_number := n, thought := thought, action := action,
          observation := none, timestamp := timestamp })
  | .agent_observation n observation _ =>
      chatReducer state (.update_step n observation)
  | .agent_finish final_answer total_steps _ =>
      chatReducer state (.set_final_answer final_answer total_steps none)
  | .execution_summary _ _ _ => state
  | .execution_complete _ => chatReducer state .complete_message
  | .heartbeat _ => state
  | .error message _ => chatReducer state (.set_error (errorMessageOrDefault message))

/-- The synchronous state effect of `sendMessage` in
`src/frontend/src/hooks/useChatController.ts` before any response bytes
arrive: an empty (after trim) question dispatches
`SET_ERROR "Question cannot be empty"` and returns; otherwise a fresh
message id and the current wall-clock timestamp are used to dispatch
`START_STREAMING`. The decoded stream events that follow are applied
separately through `handleStreamEvent`. -/
def sendMessageStart (question messageId timestamp : String) (state : ChatState) : ChatState :=
  if trimString question = "" then
    chatReducer state (.set_error "Question cannot be empty")
  else
    chatReducer state (.start_streaming question messageId timestamp)

/-- `stopStreaming` of `src/frontend/src/context/ChatContext.tsx`: the
registered controller handler (`useChatController.stopStreaming`) is a
no-op, after which `STOP_STREAMING` is dispatched. -/
def stopStreaming (state : ChatState) : ChatState :=
  chatReducer state .stop_streaming

/-- `clearMessages` of `src/frontend/src/context/ChatContext.tsx`:
dispatches `CLEAR_MESSAGES`. -/
def clearMessages (state : ChatState) : ChatState :=
  chatReducer state .clear_messages

/-- One iteration of the decode loop in `sendMessage`
(`src/frontend/src/hooks/useChatController.ts` lines 102-113): a record
that starts with `data:` has the marker stripped and trimmed, then is
parsed; a parse failure is caught and the record skipped. `JSON.parse`
composed with the payload typing is the external parameter `parse`. -/
def processRecord (parse : String → Option ChatStreamEvent)
    (state : ChatState) (record : String) : ChatState :=
  if strBeginsWith record "data:" then
    match parse (trimString (record.drop 5)) with
    | some event => handleStreamEvent state event
    | none => state
  else state

/-- The decode loop applied to a list of framed records (the result of
splitting the accumulated data on blank lines), in delivery order. -/
def processRecords (parse : String → Option ChatStreamEvent)
    (state : ChatState) (records : List String) : ChatState :=
  records.foldl (processRecord parse) state

/-- `maxReconnectAttempts` of `StreamingService` in `src/services/eventSource.ts`. -/
def maxReconnectAttempts : Nat := 3

/-- Outcome of `StreamingService.handleConnectionError`: either schedule a
retry (with the new attempt count and the computed delay in milliseconds)
or surface a terminal connection error. -/
inductive ReconnectDecision where
  | retry (attempts : Nat) (delayMs : Nat)
  | terminal (message : String)
deriving DecidableEq, Repr

/-- `StreamingService.handleConnectionError` of `src/services/eventSource.ts`:
given the number of reconnection attempts made so far, either increment the
counter and schedule a reconnect after
`Math.min(1000 * Math.pow(2, attempts - 1), 10000)` milliseconds, or report
failure once the maximum is reached. -/
def handleConnectionError (reconnectAttempts : Nat) : ReconnectDecision :=
  if reconnectAttempts < maxReconnectAttempts then
    let attempts := reconnectAttempts + 1
    .retry attempts (min (1000 * 2 ^ (attempts - 1)) 10000)
  else
    .terminal "Connection failed after maximum retry attempts"

/-- States reachable from `initialState` through the public surface of the
controller: `sendMessage` (its synchronous part), `stopStreaming`, and
applying decoded stream events in order. -/
inductive Reachable : ChatState → Prop where
  | init : Reachable initialState
  | send (question messageId timestamp : String) {s : ChatState} :
      Reachable s → Reachable (sendMessageStart question messageId timestamp s)
  | stop {s : ChatState} : Reachable s → Reachable (stopStreaming s)
  | event (ev : ChatStreamEvent) {s : ChatState} :
      Reachable s → Reachable (handleStreamEvent s ev)

/-- `true` when the message status is neither `completed` nor `error`. -/
def notFinalized (status : MessageStatus) : Bool :=
  match status with
  | .completed => false
  | .error => false
  | _ => true

/-- `true` when `currentMessage` is present and not yet finalized. -/
def inFlight (state : ChatState) : Bool :=
  match state.currentMessage with
  | some m => notFinalized m.status
  | none => false

/-! ### Concrete fixtures used by witnesses and counterexamples -/

/-- A concrete `agent_action` payload. -/
def sampleAction : AgentAction :=
  { tool := "list_tables", category := .schema_exploration,
    description := "List tables", purpose := "explore", input := "", raw_input := "" }

/-- A concrete observation payload. -/
def sampleObservation : Observation :=
  { result := "Customer,Invoice", result_type := .table_list, success := true }

/-- The turn created by submitting question `q` with id `m1` at time `t0`. -/
def sampleTurn : ChatMessage :=
  { id := "m1", question := "q", steps := [], status := .thinking, timestamp := "t0" }

/-- The state right after a successful submit of question `q`. -/
def streamingState : ChatState :=
  sendMessageStart "q" "m1" "t0" initialState

/-- A step created by an `agent_action` with `step_number = 1`. -/
def stepOne : ReActStep :=
  { step_number := 1, thought := none, action := sampleAction,
    observation := none, timestamp := "t1" }

/-- A turn that already holds the step with `step_number = 1`. -/
def turnWithStep : ChatMessage :=
  { id := "m1", question := "q", steps := [stepOne], status := .processing,
    timestamp := "t0" }

/-- An in-flight state whose current turn already holds step number 1. -/
def stateWithStep : ChatState :=
  { messages := [], currentMessage := some turnWithStep, isStreaming := true, error := none }

/-- The turn produced by `SET_FINAL_ANSWER` from current turn `m`:
`answer` attached, status `completed`, and the absent execution time that
`handleStreamEvent` passes for an `agent_finish` event. -/
def finishedTurn (m : ChatMessage) (ans : String) : ChatMessage :=
  { m with answer := some ans, status := .completed, execution_time := none }

/-! ### Helper lemmas -/

/-- The per-step rewrite of `UPDATE_STEP` is pointwise idempotent, hence so
is its `map` over the step list. -/
lemma updateSteps_idem (n : Nat) (obs : Observation) (l : List ReActStep) :
    ((l.map fun step =>
        if step.step_number = n then { step with observation := some obs } else step).map
      fun step =>
        if step.step_number = n then { step with observation := some obs } else step) =
      l.map fun step =>
        if step.step_number = n then { step with observation := some obs } else step := by
  induction l with
  | nil => rfl
  | cons head tail ih =>
      by_cases hx : head.step_number = n <;> simp [hx, ih]

/-- Every reducer action preserves the property that the streaming flag is
only set while a non-finalized current message exists. -/
lemma chatReducer_preserves_inFlight (s : ChatState) (a : ChatAction)
    (h : s.isStreaming = true → inFlight s = true) :
    (chatReducer s a).isStreaming = true → inFlight (chatReducer s a) = true := by
  cases a with
  | start_streaming q id ts =>
      intro _
      simp [chatReducer, inFlight, notFinalized]
  | stop_streaming =>
      intro hx
      simp [chatReducer] at hx
  | add_step step =>
      cases hcur : s.currentMessage with
      | none => simpa [chatReducer, hcur] using h
      | some m =>
          intro _
          simp [chatReducer, hcur, inFlight, notFinalized]
  | update_step k obs =>
      cases hcur : s.currentMessage with
      | none => simpa [chatReducer, hcur] using h
      | some m =>
          intro hx
          simp only [chatReducer, hcur] at hx ⊢
          have hm := h hx
          simp only [inFlight, hcur] at hm
          simpa [inFlight] using hm
  | set_final_answer ans total et =>
      cases hcur : s.currentMessage with
      | none => simpa [chatReducer, hcur] using h
      | some m =>
          intro hx
          simp [chatReducer, hcur] at hx
  | set_error msg =>
      intro hx
      cases hcur : s.currentMessage <;> simp [chatReducer, hcur] at hx
  | clear_error =>
      intro hx
      simp only [chatReducer] at hx ⊢
      have hm := h hx
      simpa [inFlight] using hm
  | clear_messages =>
      intro hx
      simp [chatReducer, initialState] at hx
  | complete_message =>
      cases hcur : s.currentMessage with
      | none => simpa [chatReducer, hcur] using h
      | some m =>
          intro hx
          simp [chatReducer, hcur] at hx

/-- A record whose stripped payload does not parse leaves the state
unchanged in the decode loop. -/
lemma processRecord_skip (parse : String → Option ChatStreamEvent)
    (s : ChatState) (record : String)
    (h : parse (trimString (record.drop 5)) = none) :
    processRecord parse s record = s := by
  unfold processRecord
  split
  · rw [h]
  · rfl

/-! ### Claim theorems -/

/-- C7: applying the same `agent_observation` event (hence the same
`UPDATE_STEP` action) twice yields the same state as applying it once, for
every state, step number and observation. -/
theorem update_step_idempotent (s : ChatState) (n : Nat) (obs : Observation) (ts : String) :
    handleStreamEvent (handleStreamEvent s (.agent_observation n obs ts))
        (.agent_observation n obs ts) =
      handleStreamEvent s (.agent_observation n obs ts) := by
  cases s with
  | mk msgs cur str err =>
      cases cur with
      | none => rfl
      | some m =>
          simp only [handleStreamEvent, chatReducer]
          simp [updateSteps_idem]
          intro a _ hfa
          by_cases hx : a.step_number = n
          · simp [hx]
          · simp only [if_neg hx] at hfa
            exact absurd hfa hx

/-- C9: for every attempt `n` with `1 ≤ n ≤ maxReconnectAttempts = 3`, the
backoff delay computed by `handleConnectionError` is
`min (1000 * 2 ^ (n - 1)) 10000` milliseconds, and once the attempt count
reaches the maximum, a terminal connection error is surfaced instead of a
further retry. -/
theorem backoff_delay_formula (n k : Nat) (h1 : 1 ≤ n) (h2 : n ≤ maxReconnectAttempts)
    (h3 : maxReconnectAttempts ≤ k) :
    handleConnectionError (n - 1) = .retry n (min (1000 * 2 ^ (n - 1)) 10000) ∧
    handleConnectionError k = .terminal "Connection failed after maximum retry attempts" := by
  have hlt : n - 1 < maxReconnectAttempts := by
    simp only [maxReconnectAttempts] at h2 ⊢
    omega
  have hge : ¬ (k < maxReconnectAttempts) := by omega
  have hn : n - 1 + 1 = n := by omega
  constructor
  · simp only [handleConnectionError, if_pos hlt]
    rw [hn]
  · simp only [handleConnectionError, if_neg hge]

/-- C9 witness: attempt 2 retries after `min (1000 * 2 ^ 1) 10000 = 2000` ms
and the fourth connection error (count 3) is terminal. -/
theorem backoff_delay_formula_witness :
    handleConnectionError (2 - 1) = .retry 2 (min (1000 * 2 ^ (2 - 1)) 10000) ∧
    handleConnectionError 3 = .terminal "Connection failed after maximum retry attempts" :=
  backoff_delay_formula 2 3 (by decide) (by decide) (by decide)

/-- C10: `clearMessages` resets the whole `ChatState` to `initialState` for
every prior state: the history becomes empty, the current message absent,
the streaming flag false and the error absent — so previously appended
turns are discarded. -/
theorem clear_messages_resets (s : ChatState) :
    clearMessages s = initialState ∧
    (clearMessages s).messages = [] ∧
    (clearMessages s).currentMessage = none ∧
    (clearMessages s).isStreaming = false ∧
    (clearMessages s).error = none := by
  refine ⟨rfl, rfl, rfl, rfl, rfl⟩

/-- C1 counterexample: in a state with a current message, `agent_finish`
does not clear `currentMessage` — it stays present, holding the completed
turn, so the claimed postcondition "currentMessage is absent" fails. -/
theorem agent_finish_counterexample :
    streamingState.currentMessage = some sampleTurn ∧
    (handleStreamEvent streamingState (.agent_finish "A" 1 "t1")).currentMessage ≠ none := by
  exact ⟨by decide, by decide⟩

/-- C1 (amended): for every state with a current message, `agent_finish`
appends exactly one turn to `messages`, with `answer` set and status
`completed`, and clears `isStreaming`; `currentMessage` remains present,
holding that completed turn (it is cleared only by the later
`execution_complete` event). -/
theorem agent_finish_appends_completed (s : ChatState) (m : ChatMessage)
    (ans : String) (total : Nat) (ts : String) (h : s.currentMessage = some m) :
    handleStreamEvent s (.agent_finish ans total ts) =
      { s with
          currentMessage := some (finishedTurn m ans),
          messages := s.messages ++ [finishedTurn m ans],
          isStreaming := false } ∧
    (handleStreamEvent s (.agent_finish ans total ts)).messages.length =
      s.messages.length + 1 := by
  cases s with
  | mk msgs cur str err =>
      cases h
      refine ⟨rfl, ?_⟩
      simp [handleStreamEvent, chatReducer]

/-- C1 witness: the amended theorem applied to the concrete state reached
right after submitting question `q`. -/
theorem agent_finish_appends_completed_witness :
    handleStreamEvent streamingState (.agent_finish "A" 1 "t1") =
      { streamingState with
          currentMessage := some (finishedTurn sampleTurn "A"),
          messages := streamingState.messages ++ [finishedTurn sampleTurn "A"],
          isStreaming := false } ∧
    (handleStreamEvent streamingState (.agent_finish "A" 1 "t1")).messages.length =
      streamingState.messages.length + 1 :=
  agent_finish_appends_completed streamingState sampleTurn "A" 1 "t1" (by decide)

/-- C2 counterexample: the state reached by submitting a question and then
calling `stopStreaming` is reachable through the public operations, has
`isStreaming = false`, yet its current message is present with status
`thinking` — so the claimed "iff" fails in that reachable state. -/
theorem streaming_iff_counterexample :
    Reachable (stopStreaming streamingState) ∧
    ¬ ((stopStreaming streamingState).isStreaming = true ↔
        inFlight (stopStreaming streamingState) = true) :=
  ⟨Reachable.stop (Reachable.send "q" "m1" "t0" Reachable.init), by decide⟩

/-- C2 (amended): in every state reachable through the public operations,
if `isStreaming` is true then `currentMessage` is present with a status
that is neither `completed` nor `error`; the converse direction fails (see
the counterexample) because `stopStreaming` clears only the flag. -/
theorem reachable_streaming_implies_in_flight (s : ChatState) (hr : Reachable s) :
    s.isStreaming = true → inFlight s = true := by
  induction hr with
  | init =>
      intro hx
      simp [initialState] at hx
  | send question messageId timestamp hprev ih =>
      by_cases hq : trimString question = "" <;>
        simp only [sendMessageStart, hq, if_true, if_false, ite_true, ite_false] <;>
        exact chatReducer_preserves_inFlight _ _ ih
  | stop hprev ih =>
      exact chatReducer_preserves_inFlight _ _ ih
  | event ev hprev ih =>
      cases ev <;> simp only [handleStreamEvent] <;>
        first
          | exact chatReducer_preserves_inFlight _ _ ih
          | exact ih

/-- C2 witness: the amended theorem applied to the concrete reachable state
right after a submit, where the streaming flag is set. -/
theorem reachable_streaming_implies_in_flight_witness :
    inFlight streamingState = true :=
  reachable_streaming_implies_in_flight streamingState
    (Reachable.send "q" "m1" "t0" Reachable.init) (by decide)

/-- C3 counterexample: in the streaming state, a second `sendMessage` with
a non-empty question is not rejected — it replaces the in-flight turn with
a fresh one, so `currentMessage` changes. -/
theorem send_while_streaming_counterexample :
    streamingState.isStreaming = true ∧
    (sendMessageStart "r" "m2" "t1" streamingState).currentMessage ≠
      streamingState.currentMessage := by
  exact ⟨by decide, by decide⟩

/-- C3 (amended): `sendMessage` performs no single-flight check: in any
state with `isStreaming = true`, a call with a question that is non-empty
after trimming dispatches `START_STREAMING`, replacing the in-flight turn
with a fresh `thinking` turn (the old turn is discarded, not appended) and
clearing the error. -/
theorem send_while_streaming_replaces (s : ChatState) (q id ts : String)
    (_hstreaming : s.isStreaming = true) (hq : trimString q ≠ "") :
    sendMessageStart q id ts s =
      { s with
          currentMessage :=
            some { id := id, question := q, steps := [], status := .thinking,
                   timestamp := ts },
          isStreaming := true, error := none } := by
  unfold sendMessageStart
  rw [if_neg hq]
  rfl

/-- C3 witness: the amended theorem applied to the concrete streaming state
with a second question `r`. -/
theorem send_while_streaming_replaces_witness :
    sendMessageStart "r" "m2" "t1" streamingState =
      { streamingState with
          currentMessage :=
            some { id := "m2", question := "r", steps := [], status := .thinking,
                   timestamp := "t1" },
          isStreaming := true, error := none } :=
  send_while_streaming_replaces streamingState "r" "m2" "t1" (by decide) (by decide)

/-- C4 counterexample: calling `stopStreaming` mid-stream does not clear
`currentMessage`: in the concrete in-flight state it remains present. -/
theorem stop_streaming_counterexample :
    streamingState.currentMessage ≠ none ∧
    streamingState.isStreaming = true ∧
    (stopStreaming streamingState).currentMessage ≠ none := by
  exact ⟨by decide, by decide, by decide⟩

/-- C4 (amended): for every in-flight state, `stopStreaming` clears only
the streaming flag: `messages` is unchanged (nothing appended) and
`currentMessage` remains present, still holding the in-flight turn. -/
theorem stop_streaming_clears_only_flag (s : ChatState) (m : ChatMessage)
    (hcur : s.currentMessage = some m) (_hstreaming : s.isStreaming = true) :
    stopStreaming s = { s with isStreaming := false } ∧
    (stopStreaming s).currentMessage = some m ∧
    (stopStreaming s).messages = s.messages := by
  refine ⟨rfl, ?_, rfl⟩
  simpa [stopStreaming, chatReducer] using hcur

/-- C4 witness: the amended theorem applied to the concrete in-flight
state. -/
theorem stop_streaming_clears_only_flag_witness :
    stopStreaming streamingState = { streamingState with isStreaming := false } ∧
    (stopStreaming streamingState).currentMessage = some sampleTurn ∧
    (stopStreaming streamingState).messages = streamingState.messages :=
  stop_streaming_clears_only_flag streamingState sampleTurn (by decide) (by decide)

/-- C5 counterexample: with step number 1 already present in the current
turn, a second `agent_action` carrying step number 1 appends rather than
replaces, leaving two steps with the same `step_number`. -/
theorem duplicate_step_counterexample :
    ((handleStreamEvent stateWithStep
        (.agent_action 1 none sampleAction "t2")).currentMessage.map
      fun m => m.steps.map ReActStep.step_number) = some [1, 1] := by
  decide

/-- C5 (amended): `ADD_STEP` always appends: for every state with a current
message, an `agent_action` event appends a new step built from its payload
to the end of the step list — even when a step with the same `step_number`
is already present — and sets the turn status to `processing`; duplicate
step numbers are therefore possible. -/
theorem agent_action_appends (s : ChatState) (m : ChatMessage) (n : Nat)
    (th : Option String) (a : AgentAction) (ts : String)
    (hcur : s.currentMessage = some m) :
    handleStreamEvent s (.agent_action n th a ts) =
      { s with
          currentMessage :=
            some { m with
                     steps := m.steps ++
                       [{ step_number := n, thought := th, action := a,
                          observation := none, timestamp := ts }],
                     status := .processing } } := by
  cases s with
  | mk msgs cur str err =>
      cases hcur
      rfl

/-- C5 witness: the amended theorem applied to the concrete state whose
turn already holds step number 1, with a second action for step 1. -/
theorem agent_action_appends_witness :
    handleStreamEvent stateWithStep (.agent_action 1 none sampleAction "t2") =
      { stateWithStep with
          currentMessage :=
            some { turnWithStep with
                     steps := turnWithStep.steps ++
                       [{ step_number := 1, thought := none, action := sampleAction,
                          observation := none, timestamp := "t2" }],
                     status := .processing } } :=
  agent_action_appends stateWithStep turnWithStep 1 none sampleAction "t2" (by decide)

/-- C6 counterexample: with no current message, an `error` event is not a
no-op: starting from `initialState` (whose `error` is absent) it produces a
state with `error` set, so the resulting state differs from the input. -/
theorem error_no_current_counterexample :
    initialState.currentMessage = none ∧
    handleStreamEvent initialState (.error (some "boom") "t") ≠ initialState := by
  exact ⟨by decide, by decide⟩

/-- C6 (amended): with no current message, `agent_finish` is a genuine
no-op, while an `error` event appends nothing and leaves `currentMessage`
absent and `messages` unchanged, but still records the top-level `error`
and clears `isStreaming`. -/
theorem no_current_message_events (s : ChatState) (msg : Option String)
    (ans : String) (total : Nat) (ts ts2 : String) (h : s.currentMessage = none) :
    handleStreamEvent s (.agent_finish ans total ts) = s ∧
    handleStreamEvent s (.error msg ts2) =
      { s with error := some (errorMessageOrDefault msg), isStreaming := false } := by
  cases s with
  | mk msgs cur str err =>
      cases h
      exact ⟨rfl, rfl⟩

/-- C6 witness: the amended theorem applied to `initialState` with an
`error` event carrying the message `boom`. -/
theorem no_current_message_events_witness :
    handleStreamEvent initialState (.agent_finish "A" 1 "t") = initialState ∧
    handleStreamEvent initialState (.error (some "boom") "t") =
      { initialState with error := some (errorMessageOrDefault (some "boom")),
                          isStreaming := false } :=
  no_current_message_events initialState (some "boom") "A" 1 "t" "t" (by decide)

/-- C8: a malformed record (one whose stripped payload fails to parse)
anywhere in the framed record sequence is skipped: interpreting the
sequence with the malformed record equals interpreting the sequence with
it removed, so the surrounding valid records are interpreted identically
and processing continues past the bad record. -/
theorem malformed_record_skipped (parse : String → Option ChatStreamEvent)
    (pre post : List String) (bad : String) (s : ChatState)
    (h : parse (trimString (bad.drop 5)) = none) :
    processRecords parse s (pre ++ bad :: post) = processRecords parse s (pre ++ post) := by
  simp only [processRecords, List.foldl_append, List.foldl_cons]
  rw [processRecord_skip parse _ bad h]

/-- C8 witness: with a parse function that rejects everything, the record
between the two others is skipped and both runs coincide. -/
theorem malformed_record_skipped_witness :
    processRecords (fun _ => none) initialState (["data: a"] ++ "data: x" :: ["data: b"]) =
      processRecords (fun _ => none) initialState (["data: a"] ++ ["data: b"]) :=
  malformed_record_skipped (fun _ => none) ["data: a"] ["data: b"] "data: x"
    initialState rfl

end NlToSql
